import Mathlib

/-!
Shallow embedding of the OpenMetadata test-suite validator
`ingestion/src/metadata/test_suite/validations/column/column_values_sum_to_be_between.py`.

The Python function receives a test case, an execution date and a query runner,
and either returns a `TestCaseResult` or lets an exception escape.  We model the
call as a value of `Except PyErr TestCaseResult`: `Except.ok` is a returned
result, `Except.error` is an exception propagating to the caller.  The fallible
block of the source (column resolution, query dispatch, row lookup) is embedded
as `computeSumTr`, which also counts how many calls were made to the runner's
`dispatch_query_select_first` operation.
-/

namespace ColumnValuesSumToBeBetween

/-- Python runtime values that can appear in a result row or be compared with the
float bounds: `None`, an `int`, a `float` (modelled as a rational), or a `str`. -/
inductive PyVal where
  | none : PyVal
  | vint : Int → PyVal
  | vfloat : Rat → PyVal
  | vstr : String → PyVal
  deriving DecidableEq

/-- Python exceptions relevant to the validator: the `ValueError` raised for a
missing column or a bad float literal, the `StopIteration` raised by a bare
`next` on an empty generator, the `TypeError` raised by comparing a float with
`None` or a string, and any exception raised inside the query runner. -/
inductive PyErr where
  | valueError : String → PyErr
  | stopIteration : PyErr
  | typeError : String → PyErr
  | runnerError : String → PyErr
  deriving DecidableEq

/-- Embeds Python `s.split("::")` on the character list: split at each
non-overlapping occurrence of the two-character separator, left to right.  The
result is always non-empty, and a list without the separator comes back whole. -/
def pySplitCC : List Char → List (List Char)
  | [] => [[]]
  | [c] => [[c]]
  | c :: d :: rest2 =>
    if c = ':' ∧ d = ':' then
      [] :: pySplitCC rest2
    else
      match pySplitCC (d :: rest2) with
      | [] => [[c]]
      | seg :: segs => (c :: seg) :: segs

/-- Whether the separator `"::"` occurs somewhere in the character list. -/
def hasCC : List Char → Bool
  | [] => false
  | [_] => false
  | c :: d :: rest2 => ((c == ':') && (d == ':')) || hasCC (d :: rest2)

/-- Embeds Python `s.replace(">", "")` on the character list: every occurrence
of the one-character pattern is replaced by the empty string, i.e. removed. -/
def pyReplaceGt : List Char → List Char
  | [] => []
  | c :: cs => if c == '>' then pyReplaceGt cs else c :: pyReplaceGt cs

/-- Embeds `test_case.entityLink.__root__.split("::")[-1].replace(">", "")`:
the last `"::"`-segment of the entity link, with every `">"` removed. -/
def columnNameOf (entityLink : String) : String :=
  String.mk (pyReplaceGt ((pySplitCC entityLink.data).getLastD []))

/-- One named parameter of a test case (`parameterValues` entry). -/
structure TestCaseParameterValue where
  name : String
  value : String
  deriving DecidableEq

/-- The slice of the `TestCase` schema the validator reads: name, entity link
and the ordered parameter collection. -/
structure TestCase where
  name : String
  entityLink : String
  parameterValues : List TestCaseParameterValue
  deriving DecidableEq

/-- `TestCaseStatus` from the result schema. -/
inductive TestCaseStatus where
  | Success : TestCaseStatus
  | Failed : TestCaseStatus
  | Aborted : TestCaseStatus
  deriving DecidableEq

/-- One named result value (`TestResultValue`); `value` is `Option.none` for the
Python `None` used on the aborted path. -/
structure TestResultValue where
  name : String
  value : Option String
  deriving DecidableEq

/-- The `TestCaseResult` record the validator constructs.  The execution date is
opaque to the validator and modelled as a natural number. -/
structure TestCaseResult where
  timestamp : Nat
  testCaseStatus : TestCaseStatus
  result : String
  testResultValue : List TestResultValue
  deriving DecidableEq

/-- The runner's bound table: its `__tablename__` and the column names exposed
by `inspect(runner.table).c`, in order. -/
structure RunnerTable where
  tablename : String
  columns : List String
  deriving DecidableEq

/-- The query-runner capability: a bound table, and the
`dispatch_query_select_first` operation, which for the SUM metric over the
resolved column either returns the first result row (a list of key/value pairs,
turned into a dict by the caller) or raises. -/
structure QueryRunner where
  table : RunnerTable
  dispatch_query_select_first : String → Except PyErr (List (String × PyVal))

/-- `Metrics.SUM.name`: the canonical key looked up in the returned row. -/
def metricsSUMName : String := "SUM"

/-- Embeds `dict(rows).get(key)`: building a dict from key/value pairs keeps the
last occurrence of a duplicated key, and `get` without default yields `None`
when the key is absent. -/
def dictGet (rows : List (String × PyVal)) (key : String) : PyVal :=
  match rows.reverse.find? (fun kv => kv.fst == key) with
  | Option.some kv => kv.snd
  | Option.none => PyVal.none

/-- Numeric value of the digit characters of a list (most significant first). -/
def natOfDigits (l : List Char) : Nat :=
  l.foldl (fun acc c => acc * 10 + (c.toNat - 48)) 0

/-- Whether every character of the list is a decimal digit. -/
def allDigits (l : List Char) : Bool := l.all (fun c => c.isDigit)

/-- Unsigned part of the Python `float` builtin on plain decimal literals:
digits, optionally followed by a point and further digits. -/
def pyFloatUnsigned (l : List Char) : Option Rat :=
  match l.span (fun c => c != '.') with
  | (ip, []) =>
    if !ip.isEmpty && allDigits ip then Option.some ((natOfDigits ip : Nat) : Rat)
    else Option.none
  | (ip, _ :: fp) =>
    if (!ip.isEmpty || !fp.isEmpty) && allDigits ip && allDigits fp then
      Option.some ((natOfDigits ip : Nat) + (natOfDigits fp : Nat) / ((10 : Rat) ^ fp.length))
    else Option.none

/-- Models the Python `float` builtin on the plain decimal literals used for
bounds (an optional minus sign, digits, an optional fractional part);
`Option.none` models the `ValueError` raised on anything else. -/
def pyFloat (s : String) : Option Rat :=
  match s.data with
  | '-' :: rest => (pyFloatUnsigned rest).map (fun q => -q)
  | l => pyFloatUnsigned l

/-- Embeds `next(float(param.value) for param in params if param.name == pname)`
with no default: `StopIteration` when no parameter matches, `ValueError` when
the first matching value is not a float literal, the parsed bound otherwise. -/
def extractBound (params : List TestCaseParameterValue) (pname : String) :
    Except PyErr Rat :=
  match params.find? (fun p => p.name == pname) with
  | Option.none => Except.error PyErr.stopIteration
  | Option.some p =>
    match pyFloat p.value with
    | Option.none =>
      Except.error (PyErr.valueError ("could not convert string to float: " ++ p.value))
    | Option.some q => Except.ok q

/-- The numeric content of a Python value, when it has one. -/
def pyNumOf : PyVal → Option Rat
  | PyVal.vint n => Option.some (n : Rat)
  | PyVal.vfloat q => Option.some q
  | _ => Option.none

/-- Embeds the chained comparison `min_bound <= sum_value_res <= max_bound`
where both bounds are floats: a `TypeError` when the middle value is `None` or
a string (the first comparison already raises), otherwise the conjunction of
the two comparisons. -/
def pyChainedLe (lo : Rat) (v : PyVal) (hi : Rat) : Except PyErr Bool :=
  match pyNumOf v with
  | Option.none =>
    Except.error (PyErr.typeError "unsupported operand types for comparison with float")
  | Option.some x => Except.ok (decide (lo ≤ x) && decide (x ≤ hi))

/-- Rendering of a float in an f-string (`str` of a Python float): an integral
value prints with a trailing `.0`. -/
def pyStrOfFloat (q : Rat) : String :=
  if q.den == 1 then toString q.num ++ ".0" else toString q

/-- `str(sum_value_res)`: rendering of a Python value as text. -/
def pyStr : PyVal → String
  | PyVal.none => "None"
  | PyVal.vint n => toString n
  | PyVal.vfloat q => pyStrOfFloat q
  | PyVal.vstr s => s

/-- `str(err)` for the exceptions of this model (`str` of a `ValueError` or a
`TypeError` is its message). -/
def pyErrStr : PyErr → String
  | PyErr.valueError m => m
  | PyErr.stopIteration => ""
  | PyErr.typeError m => m
  | PyErr.runnerError m => m

/-- The fallible block of the validator (the body of the `try`): resolve the
column by name against the table's columns, raising a `ValueError` when absent;
dispatch the SUM query; look the canonical key up in the returned row.  The
first component is the would-be value of `sum_value_res` or the exception
raised; the second counts the calls made to `dispatch_query_select_first`. -/
def computeSumTr (test_case : TestCase) (runner : QueryRunner) :
    Except PyErr PyVal × Nat :=
  let column_name := columnNameOf test_case.entityLink
  match runner.table.columns.find? (fun c => c == column_name) with
  | Option.none =>
    (Except.error (PyErr.valueError
      ("Cannot find the configured column " ++ column_name ++
        " for test case " ++ test_case.name)), 0)
  | Option.some col =>
    match runner.dispatch_query_select_first col with
    | Except.error e => (Except.error e, 1)
    | Except.ok rows => (Except.ok (dictGet rows metricsSUMName), 1)

/-- Shallow embedding of `column_values_sum_to_be_between`.  A failure inside
the fallible block is caught and turned into an `Aborted` result; the bound
extraction and the chained comparison happen after the `try`/`except`, so their
exceptions escape as `Except.error`. -/
def column_values_sum_to_be_between (test_case : TestCase) (execution_date : Nat)
    (runner : QueryRunner) : Except PyErr TestCaseResult :=
  match (computeSumTr test_case runner).fst with
  | Except.error err =>
    Except.ok
      { timestamp := execution_date
        testCaseStatus := TestCaseStatus.Aborted
        result := "Error computing " ++ test_case.name ++ " for " ++
          runner.table.tablename ++ ": " ++ pyErrStr err
        testResultValue := [{ name := "sum", value := Option.none }] }
  | Except.ok sum_value_res =>
    match extractBound test_case.parameterValues "minValueForColSum" with
    | Except.error e => Except.error e
    | Except.ok min_bound =>
      match extractBound test_case.parameterValues "maxValueForColSum" with
      | Except.error e => Except.error e
      | Except.ok max_bound =>
        match pyChainedLe min_bound sum_value_res max_bound with
        | Except.error e => Except.error e
        | Except.ok ok =>
          Except.ok
            { timestamp := execution_date
              testCaseStatus :=
                if ok then TestCaseStatus.Success else TestCaseStatus.Failed
              result := "Found sum=" ++ pyStr sum_value_res ++ " vs." ++
                " the expected min=" ++ pyStrOfFloat min_bound ++
                ", max=" ++ pyStrOfFloat max_bound ++ "."
              testResultValue :=
                [{ name := "sum", value := Option.some (pyStr sum_value_res) }] }

/-- Modelled from the spec: the claimed column-name extraction, taking the final
`"::"`-segment and stripping only TRAILING `">"` characters, kept separate so it
can be compared with `columnNameOf`, which embeds the source. -/
def specColumnNameTrailing (entityLink : String) : String :=
  String.mk
    ((((pySplitCC entityLink.data).getLastD []).reverse.dropWhile
      (fun c => c == '>')).reverse)

/-! ### Concrete inputs used by witnesses and counterexamples -/

/-- A test case whose entity link resolves to column `col1` and which carries
both bound parameters (min 100, max 200). -/
def tcBounds : TestCase :=
  { name := "t1"
    entityLink := "<#E::table::db.tbl::col1>"
    parameterValues :=
      [{ name := "minValueForColSum", value := "100" },
       { name := "maxValueForColSum", value := "200" }] }

/-- The same entity link and name, but an empty parameter collection. -/
def tcNoParams : TestCase :=
  { name := "t1", entityLink := "<#E::table::db.tbl::col1>", parameterValues := [] }

/-- A test case whose entity link names a column absent from the table below. -/
def tcNoCol : TestCase :=
  { name := "t2", entityLink := "<#E::table::db.tbl::nope>", parameterValues := [] }

/-- A test case whose entity link contains no `"::"` separator. -/
def tcPlainLink : TestCase :=
  { name := "t3", entityLink := "plaincol>", parameterValues := [] }

/-- A runner over table `tbl` with the single column `col1`, whose SUM query
returns 150. -/
def runnerSum150 : QueryRunner :=
  { table := { tablename := "tbl", columns := ["col1"] }
    dispatch_query_select_first := fun _ => Except.ok [("SUM", PyVal.vint 150)] }

/-- A runner whose SUM query returns 100, the lower boundary of `tcBounds`. -/
def runnerSum100 : QueryRunner :=
  { table := { tablename := "tbl", columns := ["col1"] }
    dispatch_query_select_first := fun _ => Except.ok [("SUM", PyVal.vint 100)] }

/-- A runner whose first result row lacks the canonical SUM key. -/
def runnerNoSUMKey : QueryRunner :=
  { table := { tablename := "tbl", columns := ["col1"] }
    dispatch_query_select_first := fun _ => Except.ok [("COUNT", PyVal.vint 3)] }

/-- A runner whose query dispatch raises. -/
def runnerRaises : QueryRunner :=
  { table := { tablename := "tbl", columns := ["col1"] }
    dispatch_query_select_first := fun _ =>
      Except.error (PyErr.runnerError "connection refused") }

/-! ### Supporting lemmas -/

theorem pyReplaceGt_eq_filter (l : List Char) :
    pyReplaceGt l = l.filter (fun c => c != '>') := by
  induction l with
  | nil => rfl
  | cons c cs ih =>
    by_cases h : c = '>'
    · subst h
      simp [pyReplaceGt, List.filter, ih]
    · have hb : (c != '>') = true := by simp [bne, h]
      simp [pyReplaceGt, List.filter, h, ih, hb]

theorem gt_not_mem_pyReplaceGt (l : List Char) : '>' ∉ pyReplaceGt l := by
  rw [pyReplaceGt_eq_filter]
  intro h
  have := List.of_mem_filter h
  simp at this

theorem pySplitCC_no_sep (l : List Char) (h : hasCC l = false) : pySplitCC l = [l] := by
  induction l using pySplitCC.induct with
  | case1 => rfl
  | case2 c => rfl
  | case3 c d rest2 hcd ih =>
    exfalso
    rw [hasCC] at h
    simp [hcd.left, hcd.right] at h
  | case4 c d rest2 hcond hnil ih =>
    exfalso
    rw [hasCC] at h
    simp only [Bool.or_eq_false_iff] at h
    rw [ih h.right] at hnil
    simp at hnil
  | case5 c d rest2 hcond seg segs heq ih =>
    rw [hasCC] at h
    simp only [Bool.or_eq_false_iff] at h
    rw [pySplitCC, if_neg hcond, ih h.right]

theorem columnNameOf_no_sep (s : String) (h : hasCC s.data = false) :
    columnNameOf s = String.mk (s.data.filter (fun c => c != '>')) := by
  rw [columnNameOf, pySplitCC_no_sep s.data h]
  simp [pyReplaceGt_eq_filter]

/-! ### Evaluation lemmas for the four outcome shapes of the validator -/

/-- When the fallible block raises, the exception is caught and an `Aborted`
result is returned with the summarising message and a null "sum" value. -/
theorem run_aborted_eq (tc : TestCase) (d : Nat) (r : QueryRunner) (err : PyErr)
    (h : (computeSumTr tc r).fst = Except.error err) :
    column_values_sum_to_be_between tc d r = Except.ok
      { timestamp := d
        testCaseStatus := TestCaseStatus.Aborted
        result := "Error computing " ++ tc.name ++ " for " ++
          r.table.tablename ++ ": " ++ pyErrStr err
        testResultValue := [{ name := "sum", value := Option.none }] } := by
  simp only [column_values_sum_to_be_between, h]

/-- When the fallible block, both bound extractions and the chained comparison
all succeed, the composed result record is returned. -/
theorem run_ok_eq (tc : TestCase) (d : Nat) (r : QueryRunner) (v : PyVal)
    (m M : Rat) (b : Bool)
    (hv : (computeSumTr tc r).fst = Except.ok v)
    (hm : extractBound tc.parameterValues "minValueForColSum" = Except.ok m)
    (hM : extractBound tc.parameterValues "maxValueForColSum" = Except.ok M)
    (hc : pyChainedLe m v M = Except.ok b) :
    column_values_sum_to_be_between tc d r = Except.ok
      { timestamp := d
        testCaseStatus := if b then TestCaseStatus.Success else TestCaseStatus.Failed
        result := "Found sum=" ++ pyStr v ++ " vs." ++
          " the expected min=" ++ pyStrOfFloat m ++
          ", max=" ++ pyStrOfFloat M ++ "."
        testResultValue := [{ name := "sum", value := Option.some (pyStr v) }] } := by
  simp only [column_values_sum_to_be_between, hv, hm, hM, hc]

/-- When the fallible block succeeds but the minimum-bound extraction raises,
the exception escapes the call. -/
theorem run_error_min (tc : TestCase) (d : Nat) (r : QueryRunner) (v : PyVal) (e : PyErr)
    (hv : (computeSumTr tc r).fst = Except.ok v)
    (hm : extractBound tc.parameterValues "minValueForColSum" = Except.error e) :
    column_values_sum_to_be_between tc d r = Except.error e := by
  simp only [column_values_sum_to_be_between, hv, hm]

/-- When the maximum-bound extraction raises, the exception escapes the call. -/
theorem run_error_max (tc : TestCase) (d : Nat) (r : QueryRunner) (v : PyVal)
    (m : Rat) (e : PyErr)
    (hv : (computeSumTr tc r).fst = Except.ok v)
    (hm : extractBound tc.parameterValues "minValueForColSum" = Except.ok m)
    (hM : extractBound tc.parameterValues "maxValueForColSum" = Except.error e) :
    column_values_sum_to_be_between tc d r = Except.error e := by
  simp only [column_values_sum_to_be_between, hv, hm, hM]

/-- When the chained bound comparison raises, the exception escapes the call. -/
theorem run_error_cmp (tc : TestCase) (d : Nat) (r : QueryRunner) (v : PyVal)
    (m M : Rat) (e : PyErr)
    (hv : (computeSumTr tc r).fst = Except.ok v)
    (hm : extractBound tc.parameterValues "minValueForColSum" = Except.ok m)
    (hM : extractBound tc.parameterValues "maxValueForColSum" = Except.ok M)
    (hc : pyChainedLe m v M = Except.error e) :
    column_values_sum_to_be_between tc d r = Except.error e := by
  simp only [column_values_sum_to_be_between, hv, hm, hM, hc]

/-! ### Claims -/

/-- C1 (amended): the call returns a `TestCaseResult` exactly when either the
fallible block fails (the failure is converted into a result) or the fallible
block, both bound extractions and the bound comparison all succeed.  When the
query step succeeds but a bound extraction or the comparison raises, the
exception propagates to the caller and no `TestCaseResult` is returned — so
the original "never raises outward, on every failure path" is false. -/
theorem claim_C1 (tc : TestCase) (d : Nat) (r : QueryRunner) :
    (∃ res, column_values_sum_to_be_between tc d r = Except.ok res) ↔
      ((∃ e, (computeSumTr tc r).fst = Except.error e) ∨
        (∃ v m M b, (computeSumTr tc r).fst = Except.ok v ∧
          extractBound tc.parameterValues "minValueForColSum" = Except.ok m ∧
          extractBound tc.parameterValues "maxValueForColSum" = Except.ok M ∧
          pyChainedLe m v M = Except.ok b)) := by
  cases hv : (computeSumTr tc r).fst with
  | error e =>
    constructor
    · intro _
      exact Or.inl ⟨e, rfl⟩
    · intro _
      exact ⟨_, run_aborted_eq tc d r e hv⟩
  | ok v =>
    cases hm : extractBound tc.parameterValues "minValueForColSum" with
    | error e1 =>
      constructor
      · rintro ⟨res, hres⟩
        rw [run_error_min tc d r v e1 hv hm] at hres
        cases hres
      · rintro (⟨e, he⟩ | ⟨v2, m2, M2, b2, hv2, hm2, hrest⟩)
        · cases he
        · cases hm2
    | ok m =>
      cases hM : extractBound tc.parameterValues "maxValueForColSum" with
      | error e2 =>
        constructor
        · rintro ⟨res, hres⟩
          rw [run_error_max tc d r v m e2 hv hm hM] at hres
          cases hres
        · rintro (⟨e, he⟩ | ⟨v2, m2, M2, b2, hv2, hm2, hM2, hc2⟩)
          · cases he
          · cases hM2
      | ok M =>
        cases hc : pyChainedLe m v M with
        | error e3 =>
          constructor
          · rintro ⟨res, hres⟩
            rw [run_error_cmp tc d r v m M e3 hv hm hM hc] at hres
            cases hres
          · rintro (⟨e, he⟩ | ⟨v2, m2, M2, b2, hv2, hm2, hM2, hc2⟩)
            · cases he
            · cases hv2
              cases hm2
              cases hM2
              rw [hc] at hc2
              cases hc2
        | ok b =>
          constructor
          · intro _
            exact Or.inr ⟨v, m, M, b, rfl, rfl, rfl, hc⟩
          · intro _
            exact ⟨_, run_ok_eq tc d r v m M b hv hm hM hc⟩

/-- C1 counterexample: a resolved column and a successful SUM query, but an
empty parameter collection — the call raises `StopIteration` out of the
function instead of returning a `TestCaseResult`. -/
theorem claim_C1_counterexample :
    column_values_sum_to_be_between tcNoParams 0 runnerSum150 =
      Except.error PyErr.stopIteration := by rfl

/-- C2: when the column is resolved and the query succeeds but the parameter
collection lacks `minValueForColSum` or `maxValueForColSum`, the first-match
bound extraction fails hard: the call raises out of the function and no
`TestCaseResult` is returned for that input. -/
theorem claim_C2 (tc : TestCase) (d : Nat) (r : QueryRunner) (v : PyVal)
    (hv : (computeSumTr tc r).fst = Except.ok v)
    (hmiss : tc.parameterValues.find? (fun p => p.name == "minValueForColSum") =
        Option.none ∨
      tc.parameterValues.find? (fun p => p.name == "maxValueForColSum") =
        Option.none) :
    ∃ e, column_values_sum_to_be_between tc d r = Except.error e := by
  cases hmiss with
  | inl hmin =>
    have hm : extractBound tc.parameterValues "minValueForColSum" =
        Except.error PyErr.stopIteration := by
      unfold extractBound
      rw [hmin]
    exact ⟨_, run_error_min tc d r v _ hv hm⟩
  | inr hmax =>
    have hM : extractBound tc.parameterValues "maxValueForColSum" =
        Except.error PyErr.stopIteration := by
      unfold extractBound
      rw [hmax]
    cases hm : extractBound tc.parameterValues "minValueForColSum" with
    | error e1 => exact ⟨_, run_error_min tc d r v e1 hv hm⟩
    | ok m => exact ⟨_, run_error_max tc d r v m _ hv hm hM⟩

/-- C2 witness: the theorem applied to a concrete test case with no parameters
and a runner whose SUM query returns 150. -/
theorem claim_C2_witness :
    (computeSumTr tcNoParams runnerSum150).fst = Except.ok (PyVal.vint 150) ∧
    (tcNoParams.parameterValues.find? (fun p => p.name == "minValueForColSum") =
        Option.none ∨
      tcNoParams.parameterValues.find? (fun p => p.name == "maxValueForColSum") =
        Option.none) ∧
    (∃ e, column_values_sum_to_be_between tcNoParams 0 runnerSum150 =
      Except.error e) :=
  ⟨by rfl, Or.inl (by rfl),
    claim_C2 tcNoParams 0 runnerSum150 (PyVal.vint 150) (by rfl) (Or.inl (by rfl))⟩

/-- C3: on the success path with a numeric sum and both bounds parsed, the
status is `Success` exactly when `min_bound <= sum <= max_bound`, inclusive at
both ends, and `Failed` otherwise; the status is never `Aborted` once the
query step has succeeded. -/
theorem claim_C3 (tc : TestCase) (d : Nat) (r : QueryRunner) (v : PyVal) (x m M : Rat)
    (hv : (computeSumTr tc r).fst = Except.ok v)
    (hx : pyNumOf v = Option.some x)
    (hm : extractBound tc.parameterValues "minValueForColSum" = Except.ok m)
    (hM : extractBound tc.parameterValues "maxValueForColSum" = Except.ok M) :
    ∃ res, column_values_sum_to_be_between tc d r = Except.ok res ∧
      res.testCaseStatus =
        (if m ≤ x ∧ x ≤ M then TestCaseStatus.Success else TestCaseStatus.Failed) ∧
      res.testCaseStatus ≠ TestCaseStatus.Aborted := by
  have hc : pyChainedLe m v M = Except.ok (decide (m ≤ x) && decide (x ≤ M)) := by
    unfold pyChainedLe
    rw [hx]
  refine ⟨_, run_ok_eq tc d r v m M _ hv hm hM hc, ?_, ?_⟩
  · by_cases h1 : m ≤ x <;> by_cases h2 : x ≤ M <;> simp [h1, h2]
  · by_cases h1 : m ≤ x <;> by_cases h2 : x ≤ M <;> simp [h1, h2]

/-- C3 witness: sum 100 with bounds [100, 200] — the lower boundary is
inclusive, so the classification is `Success`. -/
theorem claim_C3_witness :
    ((computeSumTr tcBounds runnerSum100).fst = Except.ok (PyVal.vint 100) ∧
      pyNumOf (PyVal.vint 100) = Option.some 100 ∧
      extractBound tcBounds.parameterValues "minValueForColSum" = Except.ok 100 ∧
      extractBound tcBounds.parameterValues "maxValueForColSum" = Except.ok 200) ∧
    (∃ res, column_values_sum_to_be_between tcBounds 5 runnerSum100 =
        Except.ok res ∧
      res.testCaseStatus =
        (if (100 : Rat) ≤ 100 ∧ (100 : Rat) ≤ 200 then TestCaseStatus.Success
          else TestCaseStatus.Failed) ∧
      res.testCaseStatus ≠ TestCaseStatus.Aborted) :=
  ⟨⟨by rfl, by rfl, by rfl, by rfl⟩,
    claim_C3 tcBounds 5 runnerSum100 (PyVal.vint 100) 100 100 200
      (by rfl) (by rfl) (by rfl) (by rfl)⟩

/-- C4: every failure raised inside the fallible block (column not found, or
the query raising) returns immediately an `Aborted` result whose timestamp is
the execution date, whose message is
`"Error computing <name> for <table>: <error>"`, and whose single result value
is named "sum" with a null value; no bound comparison occurs on this path. -/
theorem claim_C4 (tc : TestCase) (d : Nat) (r : QueryRunner) (err : PyErr)
    (h : (computeSumTr tc r).fst = Except.error err) :
    column_values_sum_to_be_between tc d r = Except.ok
      { timestamp := d
        testCaseStatus := TestCaseStatus.Aborted
        result := "Error computing " ++ tc.name ++ " for " ++
          r.table.tablename ++ ": " ++ pyErrStr err
        testResultValue := [{ name := "sum", value := Option.none }] } :=
  run_aborted_eq tc d r err h

/-- C4 witness: the theorem applied to a runner whose query dispatch raises a
connection error. -/
theorem claim_C4_witness :
    (computeSumTr tcBounds runnerRaises).fst =
        Except.error (PyErr.runnerError "connection refused") ∧
    column_values_sum_to_be_between tcBounds 3 runnerRaises = Except.ok
      { timestamp := 3
        testCaseStatus := TestCaseStatus.Aborted
        result := "Error computing " ++ tcBounds.name ++ " for " ++
          runnerRaises.table.tablename ++ ": " ++
          pyErrStr (PyErr.runnerError "connection refused")
        testResultValue := [{ name := "sum", value := Option.none }] } :=
  ⟨by rfl,
    claim_C4 tcBounds 3 runnerRaises (PyErr.runnerError "connection refused") (by rfl)⟩

/-- C5 (amended): the column name used for lookup is the final `"::"`-segment
of the entity link with EVERY `">"` character removed — interior ones
included — so no `">"` ever remains in the looked-up name.  The original claim
(only trailing `">"` stripped, interior preserved) is refuted by the
counterexample. -/
theorem claim_C5 (s : String) :
    (columnNameOf s).data =
      ((pySplitCC s.data).getLastD []).filter (fun c => c != '>') ∧
    '>' ∉ (columnNameOf s).data := by
  constructor
  · rw [columnNameOf]
    exact pyReplaceGt_eq_filter _
  · rw [columnNameOf]
    exact gt_not_mem_pyReplaceGt _

/-- C5 counterexample: for the entity link `"tbl::a>b>"` the source computes
column name `"ab"`, while stripping only trailing `">"` characters from the
final segment would give `"a>b"`. -/
theorem claim_C5_counterexample :
    columnNameOf "tbl::a>b>" = "ab" ∧
    specColumnNameTrailing "tbl::a>b>" = "a>b" ∧
    columnNameOf "tbl::a>b>" ≠ specColumnNameTrailing "tbl::a>b>" :=
  ⟨by rfl, by rfl, by decide⟩

/-- C6 (amended): when the returned row lacks the canonical SUM key, the
extracted sum is `None` and the extraction step itself does not raise — the
fallible block completes with a `None` sum.  But the call does NOT then return
a `TestCaseResult`: the subsequent bound handling raises (a `TypeError` at the
chained comparison with `None`, or the bound-extraction error), so an
exception escapes.  The original claim's conclusion that a `TestCaseResult` is
still returned is refuted by the counterexample. -/
theorem claim_C6 (tc : TestCase) (d : Nat) (r : QueryRunner) (col : String)
    (rows : List (String × PyVal))
    (hcol : r.table.columns.find? (fun c => c == columnNameOf tc.entityLink) =
      Option.some col)
    (hq : r.dispatch_query_select_first col = Except.ok rows)
    (hk : rows.reverse.find? (fun kv => kv.fst == metricsSUMName) = Option.none) :
    (computeSumTr tc r).fst = Except.ok PyVal.none ∧
    ∃ e, column_values_sum_to_be_between tc d r = Except.error e := by
  have hsum : (computeSumTr tc r).fst = Except.ok PyVal.none := by
    simp only [computeSumTr, hcol, hq, dictGet, hk]
  refine ⟨hsum, ?_⟩
  cases hm : extractBound tc.parameterValues "minValueForColSum" with
  | error e => exact ⟨e, run_error_min tc d r _ e hsum hm⟩
  | ok m =>
    cases hM : extractBound tc.parameterValues "maxValueForColSum" with
    | error e => exact ⟨e, run_error_max tc d r _ m e hsum hm hM⟩
    | ok M => exact ⟨_, run_error_cmp tc d r _ m M _ hsum hm hM (by rfl)⟩

/-- C6 counterexample: a row without the SUM key and both bounds present — the
sum is extracted as `None` without raising, yet the call then raises a
`TypeError` at the comparison, so no `TestCaseResult` is returned. -/
theorem claim_C6_counterexample :
    (computeSumTr tcBounds runnerNoSUMKey).fst = Except.ok PyVal.none ∧
    column_values_sum_to_be_between tcBounds 0 runnerNoSUMKey =
      Except.error
        (PyErr.typeError "unsupported operand types for comparison with float") :=
  ⟨by rfl, by rfl⟩

/-- C6 witness: the theorem applied to the concrete no-SUM-key runner. -/
theorem claim_C6_witness :
    (runnerNoSUMKey.table.columns.find?
        (fun c => c == columnNameOf tcBounds.entityLink) = Option.some "col1" ∧
      runnerNoSUMKey.dispatch_query_select_first "col1" =
        Except.ok [("COUNT", PyVal.vint 3)] ∧
      ([("COUNT", PyVal.vint 3)] : List (String × PyVal)).reverse.find?
        (fun kv => kv.fst == metricsSUMName) = Option.none) ∧
    ((computeSumTr tcBounds runnerNoSUMKey).fst = Except.ok PyVal.none ∧
      ∃ e, column_values_sum_to_be_between tcBounds 4 runnerNoSUMKey =
        Except.error e) :=
  ⟨⟨by rfl, by rfl, by rfl⟩,
    claim_C6 tcBounds 4 runnerNoSUMKey "col1" [("COUNT", PyVal.vint 3)]
      (by rfl) (by rfl) (by rfl)⟩

/-- C7: on the success path the returned record carries exactly the message
`"Found sum=<value> vs. the expected min=<min>, max=<max>."` with the computed
sum and both parsed bounds substituted, the timestamp equal to the execution
date, and a single result value named "sum" holding the sum rendered as
text. -/
theorem claim_C7 (tc : TestCase) (d : Nat) (r : QueryRunner) (v : PyVal)
    (m M : Rat) (b : Bool)
    (hv : (computeSumTr tc r).fst = Except.ok v)
    (hm : extractBound tc.parameterValues "minValueForColSum" = Except.ok m)
    (hM : extractBound tc.parameterValues "maxValueForColSum" = Except.ok M)
    (hc : pyChainedLe m v M = Except.ok b) :
    column_values_sum_to_be_between tc d r = Except.ok
      { timestamp := d
        testCaseStatus := if b then TestCaseStatus.Success else TestCaseStatus.Failed
        result := "Found sum=" ++ pyStr v ++ " vs. the expected min=" ++
          pyStrOfFloat m ++ ", max=" ++ pyStrOfFloat M ++ "."
        testResultValue := [{ name := "sum", value := Option.some (pyStr v) }] } := by
  rw [run_ok_eq tc d r v m M b hv hm hM hc]
  have hlit : " vs." ++ " the expected min=" = " vs. the expected min=" := by rfl
  rw [String.append_assoc ("Found sum=" ++ pyStr v) " vs." " the expected min=", hlit]

/-- C7 witness: sum 150 in bounds [100, 200] gives the exact message
`"Found sum=150 vs. the expected min=100.0, max=200.0."`. -/
theorem claim_C7_witness :
    ((computeSumTr tcBounds runnerSum150).fst = Except.ok (PyVal.vint 150) ∧
      extractBound tcBounds.parameterValues "minValueForColSum" = Except.ok 100 ∧
      extractBound tcBounds.parameterValues "maxValueForColSum" = Except.ok 200 ∧
      pyChainedLe 100 (PyVal.vint 150) 200 = Except.ok true) ∧
    column_values_sum_to_be_between tcBounds 9 runnerSum150 = Except.ok
      { timestamp := 9
        testCaseStatus := if true then TestCaseStatus.Success else TestCaseStatus.Failed
        result := "Found sum=" ++ pyStr (PyVal.vint 150) ++ " vs. the expected min=" ++
          pyStrOfFloat 100 ++ ", max=" ++ pyStrOfFloat 200 ++ "."
        testResultValue :=
          [{ name := "sum", value := Option.some (pyStr (PyVal.vint 150)) }] } :=
  ⟨⟨by rfl, by rfl, by rfl, by rfl⟩,
    claim_C7 tcBounds 9 runnerSum150 (PyVal.vint 150) 100 200 true
      (by rfl) (by rfl) (by rfl) (by rfl)⟩

/-- C8 (amended): every invocation issues AT MOST one query through the
runner: exactly one when the column resolves, and zero when column resolution
fails, because the `ValueError` is raised before the dispatch.  The original
"exactly one on every path, including the Aborted paths" is refuted by the
counterexample. -/
theorem claim_C8 (tc : TestCase) (r : QueryRunner) :
    (computeSumTr tc r).snd ≤ 1 ∧
    ((computeSumTr tc r).snd = 1 ↔
      (r.table.columns.find? (fun c => c == columnNameOf tc.entityLink)).isSome =
        true) := by
  cases hcol : r.table.columns.find? (fun c => c == columnNameOf tc.entityLink) with
  | none =>
    have h2 : (computeSumTr tc r).snd = 0 := by
      simp only [computeSumTr, hcol]
    simp [h2, hcol]
  | some col =>
    cases hq : r.dispatch_query_select_first col with
    | error e =>
      have h2 : (computeSumTr tc r).snd = 1 := by
        simp only [computeSumTr, hcol, hq]
      simp [h2, hcol]
    | ok rows =>
      have h2 : (computeSumTr tc r).snd = 1 := by
        simp only [computeSumTr, hcol, hq]
      simp [h2, hcol]

/-- C8 counterexample: a test case naming a missing column reaches an Aborted
result with zero dispatch calls, so "exactly one query on every path" fails. -/
theorem claim_C8_counterexample :
    (computeSumTr tcNoCol runnerSum150).snd = 0 ∧
    column_values_sum_to_be_between tcNoCol 0 runnerSum150 = Except.ok
      { timestamp := 0
        testCaseStatus := TestCaseStatus.Aborted
        result := "Error computing t2 for tbl: Cannot find the configured column nope for test case t2"
        testResultValue := [{ name := "sum", value := Option.none }] } :=
  ⟨by rfl, by rfl⟩

/-- C9: determinism — for a fixed test case and runner, two calls differing
only in the execution date have identical status and identical result message
(hence two calls with fully identical inputs do as well); only the timestamp
can differ. -/
theorem claim_C9 (tc : TestCase) (r : QueryRunner) (d1 d2 : Nat) :
    Except.map (fun res => (res.testCaseStatus, res.result))
      (column_values_sum_to_be_between tc d1 r) =
    Except.map (fun res => (res.testCaseStatus, res.result))
      (column_values_sum_to_be_between tc d2 r) := by
  cases hv : (computeSumTr tc r).fst with
  | error e =>
    rw [run_aborted_eq tc d1 r e hv, run_aborted_eq tc d2 r e hv]
    rfl
  | ok v =>
    cases hm : extractBound tc.parameterValues "minValueForColSum" with
    | error e =>
      rw [run_error_min tc d1 r v e hv hm, run_error_min tc d2 r v e hv hm]
    | ok m =>
      cases hM : extractBound tc.parameterValues "maxValueForColSum" with
      | error e =>
        rw [run_error_max tc d1 r v m e hv hm hM, run_error_max tc d2 r v m e hv hm hM]
      | ok M =>
        cases hc : pyChainedLe m v M with
        | error e =>
          rw [run_error_cmp tc d1 r v m M e hv hm hM hc,
            run_error_cmp tc d2 r v m M e hv hm hM hc]
        | ok b =>
          rw [run_ok_eq tc d1 r v m M b hv hm hM hc,
            run_ok_eq tc d2 r v m M b hv hm hM hc]
          rfl

/-- C10: for an entity link containing no `"::"` separator, the parse never
fails — the whole string with `">"` characters removed is used as the column
name — and resolution proceeds normally against the table's columns, yielding
an `Aborted` result when no such column exists. -/
theorem claim_C10 (tc : TestCase) (d : Nat) (r : QueryRunner)
    (h : hasCC tc.entityLink.data = false) :
    columnNameOf tc.entityLink =
      String.mk (tc.entityLink.data.filter (fun c => c != '>')) ∧
    (r.table.columns.find? (fun c => c == columnNameOf tc.entityLink) =
        Option.none →
      ∃ res, column_values_sum_to_be_between tc d r = Except.ok res ∧
        res.testCaseStatus = TestCaseStatus.Aborted) := by
  refine ⟨columnNameOf_no_sep tc.entityLink h, ?_⟩
  intro hnone
  have herr : (computeSumTr tc r).fst = Except.error (PyErr.valueError
      ("Cannot find the configured column " ++ columnNameOf tc.entityLink ++
        " for test case " ++ tc.name)) := by
    simp only [computeSumTr, hnone]
  exact ⟨_, run_aborted_eq tc d r _ herr, rfl⟩

/-- C10 witness: the theorem applied to the separator-free entity link
`"plaincol>"` against a table without such a column. -/
theorem claim_C10_witness :
    hasCC tcPlainLink.entityLink.data = false ∧
    (columnNameOf tcPlainLink.entityLink =
        String.mk (tcPlainLink.entityLink.data.filter (fun c => c != '>')) ∧
      (runnerSum150.table.columns.find?
          (fun c => c == columnNameOf tcPlainLink.entityLink) = Option.none →
        ∃ res, column_values_sum_to_be_between tcPlainLink 2 runnerSum150 =
            Except.ok res ∧
          res.testCaseStatus = TestCaseStatus.Aborted)) :=
  ⟨by rfl, claim_C10 tcPlainLink 2 runnerSum150 (by rfl)⟩

end ColumnValuesSumToBeBetween
